import Mathlib

/-!
Verification of `asphalt.core.context` (file `src/asphalt/core/context.py`).

The embedding models the hierarchical resource-context runtime as a pure
state-passing semantics:

* A `Ctx` mirrors one `Context` instance: its `_parent` link, `_closed` flag,
  the dictionaries `_resources`, `_resource_factories`,
  `_resource_factories_by_context_attr`, the attributes set on the instance via
  `setattr` (`attrs`), and `_teardown_callbacks`.
* A `World` is the heap of all context instances; a context is referred to by
  its index in that list.  Children are always created after their parents, so
  in every world built through the API a parent index is smaller than the index
  of its child.
* Python dictionaries are insertion-ordered association lists (`dictSet`
  overwrites an existing key in place and appends a fresh one, matching CPython
  semantics); `.values()` is `List.map Prod.snd`.
* Resource values (`Val`) are integers; the single modelled resource type
  carries numeric type identifiers (`TypeId`), matching the `(type, name)`
  keying of the source.  Python's `None` return of `get_resource` is modelled
  by `Option Val`.  The `value is None` guard of `add_resource` is vacuous
  here because every modelled value is a real value.
* A factory callback is modelled as a function of the *identity of the
  requesting context* that can raise (`Except Err Val`), together with the
  `iscoroutinefunction` flag that `add_resource_factory` inspects.
* Exceptions are the `Err` type; raising is the `Except.error` branch.  All
  validation in the source happens before any mutation, so an operation that
  raises leaves the world unchanged -- except `close`, which mutates before it
  raises and therefore returns the new world alongside the optional exception.
* Event dispatch (`resource_added.dispatch`) and the asyncio plumbing have no
  observable effect on the registry semantics and are not modelled.
-/

set_option autoImplicit false

namespace AsphaltCtx

/-- Numeric identifier standing for a Python type object. -/
abbrev TypeId := Nat

/-- Resource name. -/
abbrev Name := String

/-- The `(type, name)` key under which resources and factories are stored. -/
abbrev Key := TypeId × Name

/-- Resource values.  All modelled resource values are integers. -/
abbrev Val := Int

/-- Python exceptions raised by the module under verification.

* `invalidNode` is a model artifact: dereferencing a context id that is not in
  the world.  It never occurs in worlds used by the theorems.
* `runtimeError` is `RuntimeError("this context has already been closed")`
  raised by `Context._check_closed` (the spec calls it InvalidOperation).
* `valueError` covers the `ValueError`s of `add_resource` /
  `add_resource_factory` (malformed name, empty `types`).
* `typeError` is the `TypeError` raised for a coroutine factory callback.
* `assertionFailed` models the `assert self.is_factory` in `generate_value`.
* `resourceConflict`, `resourceNotFound`, `teardownError` mirror the exception
  classes of the source; `userError` stands for an arbitrary exception raised
  by user code (a factory callback or a teardown callback). -/
inductive Err where
  | invalidNode : Err
  | runtimeError : Err
  | valueError : Err
  | typeError : Err
  | assertionFailed : Err
  | resourceConflict : Err
  | resourceNotFound (type : TypeId) (name : Name) : Err
  | teardownError (exceptions : List Err) : Err
  | userError (code : Nat) : Err

/-- A factory callback: `fn` is the callable's behaviour, a function of the
requesting context's identity that may raise; `is_coroutine` records what
`iscoroutinefunction(factory_callback)` would report. -/
structure FactoryCallback where
  fn : Nat → Except Err Val
  is_coroutine : Bool

/-- The dynamically-typed `value_or_factory` slot of `ResourceContainer`:
either a concrete resource value or a factory callable. -/
inductive ValueOrFactory where
  | value (v : Val) : ValueOrFactory
  | factory (fc : FactoryCallback) : ValueOrFactory

/-- `ResourceContainer.__slots__` of the source. -/
structure ResourceContainer where
  value_or_factory : ValueOrFactory
  types : List TypeId
  name : Name
  context_attr : Option String
  is_factory : Bool

/-- Extract a concrete value from the `value_or_factory` slot.  In every world
built through the API, containers stored in `_resources` hold concrete values
(both writers, `add_resource` and `generate_value`, store `is_factory=False`
containers), so the `factory` branch is unreachable where this is used. -/
def ValueOrFactory.asValue : ValueOrFactory → Option Val
  | .value v => some v
  | .factory _ => none

/-- A teardown callback: called with the exception that ended the context when
`pass_exception` was set, with nothing otherwise (modelled as `none`), and may
itself raise. -/
abbrev CbFun := Option Err → Except Err Unit

/-- One `Context` instance (its `__init__`-created state plus `setattr`-set
attributes). -/
structure Ctx where
  parent : Option Nat
  closed : Bool
  resources : List (Key × ResourceContainer)
  resource_factories : List (Key × ResourceContainer)
  resource_factories_by_context_attr : List (String × ResourceContainer)
  attrs : List (String × Val)
  teardown_callbacks : List (CbFun × Bool)

/-- The heap of context instances, indexed by creation order. -/
abbrev World := List Ctx

/-- A freshly constructed `Context` with the given parent. -/
def mkCtx (parent : Option Nat) : Ctx :=
  { parent := parent
    closed := false
    resources := []
    resource_factories := []
    resource_factories_by_context_attr := []
    attrs := []
    teardown_callbacks := [] }

/-! ### Python dictionaries as insertion-ordered association lists -/

/-- `d[k] = v`: overwrite in place if the key exists, append otherwise. -/
def dictSet {K A : Type} [DecidableEq K] : List (K × A) → K → A → List (K × A)
  | [], k, a => [(k, a)]
  | (k', a') :: rest, k, a =>
      if k' = k then (k, a) :: rest else (k', a') :: dictSet rest k a

/-- `d.get(k)`. -/
def dictGet {K A : Type} [DecidableEq K] : List (K × A) → K → Option A
  | [], _ => none
  | (k', a') :: rest, k => if k' = k then some a' else dictGet rest k

/-- `d.update(other)`: set every entry of `other`, in order. -/
def dictUpdate {K A : Type} [DecidableEq K]
    (d other : List (K × A)) : List (K × A) :=
  other.foldl (fun acc p => dictSet acc p.1 p.2) d

/-- `set(values)`: deduplicate by equality keeping first occurrences; the
length and membership of the result match the cardinality and membership of
the Python set. -/
def pySet {A : Type} [DecidableEq A] (l : List A) : List A :=
  l.foldl (fun acc v => if v ∈ acc then acc else acc ++ [v]) []

/-! ### The heap -/

/-- Dereference a context id. -/
def getCtx? : World → Nat → Option Ctx
  | [], _ => none
  | c :: _, 0 => some c
  | _ :: rest, n + 1 => getCtx? rest n

/-- Replace the context stored under an id (no-op for a dangling id). -/
def setCtx : World → Nat → Ctx → World
  | [], _, _ => []
  | _ :: rest, 0, c => c :: rest
  | x :: rest, n + 1, c => x :: setCtx rest n c

/-- `Context.context_chain` as a list of context ids: the context itself, its
parent, grandparent, and so on.  The recursion is fuelled by the size of the
world; in every world built through the API a parent was created before its
child, so the chain is strictly decreasing and the fuel is never exhausted. -/
def chainAux (w : World) : Nat → Nat → List Nat
  | 0, _ => []
  | fuel + 1, i =>
      i :: (match getCtx? w i with
        | some c =>
            (match c.parent with
              | some p => chainAux w fuel p
              | none => [])
        | none => [])

def context_chain (w : World) (i : Nat) : List Nat :=
  chainAux w (w.length + 1) i

/-! ### Validation helpers -/

/-- `resource_name_re.fullmatch(name)` for the pattern `\w+` (over the ASCII
word characters used throughout). -/
def nameOk (s : String) : Bool :=
  !s.data.isEmpty && s.data.all (fun ch => ch.isAlphanum || ch == '_')

/-- `type(value)`: every modelled value is an `int`. -/
def intTypeId : TypeId := 0

def typeOf (_ : Val) : TypeId := intTypeId

/-! ### Operations of `Context` -/

/-- Register the same container under `(t, name)` for every declared type
(the `for type_ in types: d[(type_, name)] = resource` loops). -/
def storeAll (d : List (Key × ResourceContainer)) (types : List TypeId)
    (name : Name) (container : ResourceContainer) :
    List (Key × ResourceContainer) :=
  types.foldl (fun d t => dictSet d (t, name) container) d

/-- The concrete container built by `generate_value` from a factory container
and the produced value. -/
def materializedContainer (self : ResourceContainer) (value : Val) :
    ResourceContainer :=
  { value_or_factory := .value value
    types := self.types
    name := self.name
    context_attr := self.context_attr
    is_factory := false }

/-- The mutation `generate_value` performs on the requesting context: store
the concrete container under every `(type_, name)` key and set the bound
attribute, if any. -/
def materializeInto (c : Ctx) (self : ResourceContainer) (value : Val) : Ctx :=
  let d := storeAll c.resources self.types self.name
    (materializedContainer self value)
  let c := { c with resources := d }
  match self.context_attr with
  | some a => { c with attrs := dictSet c.attrs a value }
  | none => c

/-- `ResourceContainer.generate_value`: invoke the factory callable with the
requesting context, then store a concrete container under the same keys in the
requesting context and set the bound attribute there.  If the callable raises,
the exception propagates before anything is stored. -/
def ResourceContainer.generate_value (self : ResourceContainer) (w : World)
    (i : Nat) : Except Err (World × Val) :=
  if self.is_factory = false then .error .assertionFailed
  else
    match self.value_or_factory with
    | .value _ => .error .typeError
    | .factory fc =>
        match fc.fn i with
        | .error e => .error e
        | .ok value =>
            match getCtx? w i with
            | none => .error .invalidNode
            | some c => .ok (setCtx w i (materializeInto c self value), value)

/-- `Context.add_resource`.  The `types` normalisation keeps only the
list-of-types shape (a single type is passed as a one-element list); the
`value is None` rejection is vacuous because modelled values are real. -/
def add_resource (w : World) (i : Nat) (value : Val) (name : Name)
    (context_attr : Option String) (types : List TypeId) : Except Err World :=
  match getCtx? w i with
  | none => .error .invalidNode
  | some c =>
      if c.closed then .error .runtimeError
      else
        let types := if types.isEmpty then [typeOf value] else types
        if !nameOk name then .error .valueError
        else if (match context_attr with
            | some a => (dictGet c.attrs a).isSome
            | none => false) then .error .resourceConflict
        else if types.any (fun t => (dictGet c.resources (t, name)).isSome)
          then .error .resourceConflict
        else
          let resource : ResourceContainer :=
            { value_or_factory := .value value
              types := types
              name := name
              context_attr := context_attr
              is_factory := false }
          let c := { c with resources := storeAll c.resources types name resource }
          let c :=
            match context_attr with
            | some a => { c with attrs := dictSet c.attrs a value }
            | none => c
          .ok (setCtx w i c)

/-- `Context.add_resource_factory`. -/
def add_resource_factory (w : World) (i : Nat)
    (factory_callback : FactoryCallback) (types : List TypeId) (name : Name)
    (context_attr : Option String) : Except Err World :=
  match getCtx? w i with
  | none => .error .invalidNode
  | some c =>
      if c.closed then .error .runtimeError
      else if !nameOk name then .error .valueError
      else if factory_callback.is_coroutine then .error .typeError
      else if types.isEmpty then .error .valueError
      else
        if (match context_attr with
            | some a =>
                (dictGet c.resource_factories_by_context_attr a).isSome
            | none => false) then .error .resourceConflict
        else if types.any
            (fun t => (dictGet c.resource_factories (t, name)).isSome)
          then .error .resourceConflict
        else
          let resource : ResourceContainer :=
            { value_or_factory := .factory factory_callback
              types := types
              name := name
              context_attr := context_attr
              is_factory := true }
          let c :=
            { c with resource_factories :=
                storeAll c.resource_factories types name resource }
          let c :=
            match context_attr with
            | some a =>
                { c with resource_factories_by_context_attr :=
                    dictSet c.resource_factories_by_context_attr a resource }
            | none => c
          .ok (setCtx w i c)

/-- The `next(... for ctx in self.context_chain if key in
ctx._resource_factories)` scan of `get_resource`: the factory registered
nearest to the requesting context, scanning it and then its ancestors
outward. -/
def findChainFactory (w : World) (i : Nat) (key : Key) :
    Option ResourceContainer :=
  (context_chain w i).findSome? fun j =>
    match getCtx? w j with
    | some c => dictGet c.resource_factories key
    | none => none

/-- The final `next(... for ctx in self.context_chain if key in
ctx._resources)` scan of `get_resource`. -/
def findChainResource (w : World) (i : Nat) (key : Key) :
    Option ResourceContainer :=
  (context_chain w i).findSome? fun j =>
    match getCtx? w j with
    | some c => dictGet c.resources key
    | none => none

/-- `Context.get_resource`. -/
def get_resource (w : World) (i : Nat) (type : TypeId) (name : Name) :
    Except Err (World × Option Val) :=
  match getCtx? w i with
  | none => .error .invalidNode
  | some c =>
      if c.closed then .error .runtimeError
      else
        match dictGet c.resources (type, name) with
        | some resource => .ok (w, resource.value_or_factory.asValue)
        | none =>
            match findChainFactory w i (type, name) with
            | some resource =>
                match resource.generate_value w i with
                | .error e => .error e
                | .ok (w', value) => .ok (w', some value)
            | none =>
                .ok (w, (findChainResource w i (type, name)).bind
                  fun r => r.value_or_factory.asValue)

/-- `Context.require_resource`. -/
def require_resource (w : World) (i : Nat) (type : TypeId) (name : Name) :
    Except Err (World × Val) :=
  match get_resource w i type name with
  | .error e => .error e
  | .ok (_, none) => .error (.resourceNotFound type name)
  | .ok (w', some v) => .ok (w', v)

/-- `Context.add_teardown_callback`. -/
def add_teardown_callback (w : World) (i : Nat) (callback : CbFun)
    (pass_exception : Bool) : Except Err World :=
  match getCtx? w i with
  | none => .error .invalidNode
  | some c =>
      if c.closed then .error .runtimeError
      else
        .ok (setCtx w i
          { c with teardown_callbacks :=
              c.teardown_callbacks ++ [(callback, pass_exception)] })

/-- The exception-collecting loop of `Context.close`: run every callback in
the given order, collecting the exceptions raised, in encounter order. -/
def teardownErrors (cbs : List (CbFun × Bool)) (exception : Option Err) :
    List Err :=
  cbs.foldl (fun excs cb =>
    match cb.1 (if cb.2 then exception else none) with
    | .ok _ => excs
    | .error e => excs ++ [e]) []

/-- `Context.close`.  The context is marked closed and the callback list is
discarded even when the aggregate `TeardownError` is raised, so the new world
is returned alongside the exception, if any. -/
def close (w : World) (i : Nat) (exception : Option Err) : World × Option Err :=
  match getCtx? w i with
  | none => (w, some .invalidNode)
  | some c =>
      if c.closed then (w, some .runtimeError)
      else
        let w := setCtx w i { c with closed := true }
        let excs := teardownErrors c.teardown_callbacks.reverse exception
        let w := setCtx w i { c with closed := true, teardown_callbacks := [] }
        if excs.isEmpty then (w, none) else (w, some (.teardownError excs))

/-- `Context.get_resources`.  Note that the source performs no closed check
here, and that its factory stage iterates `ctx._resources` (the concrete
resource dictionaries) rather than `ctx._resource_factories`. -/
def get_resources (w : World) (i : Nat) (type : TypeId) :
    Except Err (World × List Val) :=
  match getCtx? w i with
  | none => .error .invalidNode
  | some c =>
      let resources : List (Name × Val) :=
        (c.resources.map Prod.snd).foldl (fun acc container =>
          if container.is_factory = false && container.types.contains type then
            match container.value_or_factory with
            | .value v => dictSet acc container.name v
            | .factory _ => acc
          else acc) []
      let stage2 : Except Err (World × List (Name × Val)) :=
        (context_chain w i).foldlM (fun acc j =>
          match getCtx? acc.1 j with
          | none => .ok acc
          | some cj =>
              (cj.resources.map Prod.snd).foldlM (fun acc container =>
                if container.is_factory = true
                    && container.types.contains type
                    && (dictGet resources container.name).isNone then
                  match container.generate_value acc.1 i with
                  | .error e => .error e
                  | .ok (w', v) =>
                      .ok (w', dictSet acc.2 container.name v)
                else .ok acc) acc) (w, [])
      match stage2 with
      | .error e => .error e
      | .ok (w', inner) =>
          let resources := dictUpdate resources inner
          let inner3 : List (Name × Val) :=
            ((context_chain w' i).drop 1).foldl (fun acc j =>
              match getCtx? w' j with
              | none => acc
              | some cj =>
                  (cj.resources.map Prod.snd).foldl (fun acc container =>
                    if container.is_factory = false
                        && container.types.contains type
                        && (dictGet resources container.name).isNone then
                      match container.value_or_factory with
                      | .value v => dictSet acc container.name v
                      | .factory _ => acc
                    else acc) acc) []
          let resources := dictUpdate resources inner3
          .ok (w', pySet (resources.map Prod.snd))

/-! ### Result classifiers used by the concrete runs -/

def isConflict : Except Err World → Bool
  | .error .resourceConflict => true
  | _ => false

def isOkW : Except Err World → Bool
  | .ok _ => true
  | _ => false

/-! ### Concrete executions exercising the claims -/

/-- Claim C1 run: root `R` (id 0) publishes 42 under `(int, "n")`; child `C`
(id 1) first sees 42 by ancestor fallback, then publishes its own 7 and sees
7, while sibling `D` (id 2) still sees 42. -/
def c1Run : Except Err (Option Val × Option Val × Option Val) := do
  let w : World := [mkCtx none, mkCtx (some 0), mkCtx (some 0)]
  let w ← add_resource w 0 42 "n" none [intTypeId]
  let (w, r1) ← get_resource w 1 intTypeId "n"
  let w ← add_resource w 1 7 "n" none [intTypeId]
  let (w, r2) ← get_resource w 1 intTypeId "n"
  let (_, r3) ← get_resource w 2 intTypeId "n"
  pure (r1, r2, r3)

/-- A factory whose produced value records the identity of the requesting
context. -/
def c2Factory : FactoryCallback :=
  { fn := fun j => .ok (100 + (j : Int)), is_coroutine := false }

/-- Claim C2 run: a factory on the root; siblings 1 and 2 each materialize
their own instance, a repeated lookup on 1 returns the first instance again,
and the declaring root gains no concrete entry. -/
def c2Run : Except Err (Option Val × Option Val × Option Val × Nat) := do
  let w : World := [mkCtx none, mkCtx (some 0), mkCtx (some 0)]
  let w ← add_resource_factory w 0 c2Factory [7] "default" none
  let (w, r1) ← get_resource w 1 7 "default"
  let (w, r2) ← get_resource w 2 7 "default"
  let (w, r3) ← get_resource w 1 7 "default"
  let rootCount :=
    match getCtx? w 0 with
    | some c => c.resources.length
    | none => 99
  pure (r1, r2, r3, rootCount)

/-- A teardown callback that raises `userError code`. -/
def cbRaise (code : Nat) : CbFun := fun _ => .error (.userError code)

/-- A teardown callback that succeeds. -/
def cbOk : CbFun := fun _ => .ok ()

/-- Claim C3 run, all three callbacks raising: registration order `[1, 2, 3]`
must surface as `TeardownError [3, 2, 1]`. -/
def c3RunAll : Except Err (Option Err) := do
  let w : World := [mkCtx none]
  let w ← add_teardown_callback w 0 (cbRaise 1) false
  let w ← add_teardown_callback w 0 (cbRaise 2) false
  let w ← add_teardown_callback w 0 (cbRaise 3) false
  pure (close w 0 none).2

/-- Claim C3 run, only the middle callback raising. -/
def c3RunMid : Except Err (Option Err) := do
  let w : World := [mkCtx none]
  let w ← add_teardown_callback w 0 cbOk false
  let w ← add_teardown_callback w 0 (cbRaise 2) false
  let w ← add_teardown_callback w 0 cbOk false
  pure (close w 0 none).2

/-- A factory callback that always succeeds with 0. -/
def okFactory : FactoryCallback := { fn := fun _ => .ok 0, is_coroutine := false }

/-- Claim C4 run: close a fresh context, then attempt every mutation plus a
second close. -/
def c4Run :
    Except Err World × Except Err World × Except Err World × Option Err :=
  let w := (close [mkCtx none] 0 none).1
  (add_resource w 0 5 "n" none [7],
   add_resource_factory w 0 okFactory [7] "n" none,
   add_teardown_callback w 0 cbOk false,
   (close w 0 none).2)

/-- A factory producing 99. -/
def c5Factory : FactoryCallback := { fn := fun _ => .ok 99, is_coroutine := false }

/-- Claim C5 run: a factory registered on the context itself; `get_resources`
returns the empty set and materializes nothing, while `get_resource` on the
same state does invoke the factory. -/
def c5Run : Except Err (List Val × Nat × Option Val) := do
  let w : World := [mkCtx none]
  let w ← add_resource_factory w 0 c5Factory [7] "n" none
  let (w', vs) ← get_resources w 0 7
  let cnt :=
    match getCtx? w' 0 with
    | some c => c.resources.length
    | none => 99
  let (_, r) ← get_resource w' 0 7 "n"
  pure (vs, cnt, r)

/-- Claim C6 run: the same value 5 published under two different names of the
same type. -/
def c6Run : Except Err (List Val) := do
  let w : World := [mkCtx none]
  let w ← add_resource w 0 5 "a" none [7]
  let w ← add_resource w 0 5 "b" none [7]
  let (_, vs) ← get_resources w 0 7
  pure vs

/-- Claim C7 run: duplicate key on the same context conflicts; a different
name on the same context, and the same key on a child, succeed. -/
def c7Run : Except Err (Bool × Bool × Bool) := do
  let w : World := [mkCtx none, mkCtx (some 0)]
  let w ← add_resource w 0 5 "n" none [7]
  pure (isConflict (add_resource w 0 6 "n" none [7]),
        isOkW (add_resource w 0 6 "m" none [7]),
        isOkW (add_resource w 1 6 "n" none [7]))

/-- Claim C8 counterexample run: `add_resource` sets the bound attribute
`foo`; a subsequent `add_resource_factory` bound to the same attribute is
claimed to raise `ResourceConflict`, but the source only consults
`_resource_factories_by_context_attr`. -/
def c8Run : Except Err Bool := do
  let w : World := [mkCtx none]
  let w ← add_resource w 0 5 "v" (some "foo") [7]
  pure (isOkW (add_resource_factory w 0 okFactory [7] "g" (some "foo")))

/-- Claim C8 amended run: the validations `add_resource_factory` does
perform: factory-attribute conflict, factory key conflict, empty `types`,
coroutine callback, malformed name. -/
def c8aRun : Except Err (Bool × Bool × Bool × Bool × Bool) := do
  let w : World := [mkCtx none]
  let w ← add_resource_factory w 0 okFactory [7] "g" (some "foo")
  pure (isConflict (add_resource_factory w 0 okFactory [8] "h" (some "foo")),
        isConflict (add_resource_factory w 0 okFactory [7] "g" none),
        (match add_resource_factory w 0 okFactory [] "h" none with
         | .error .valueError => true
         | _ => false),
        (match add_resource_factory w 0
            { fn := fun _ => .ok 0, is_coroutine := true } [8] "h" none with
         | .error .typeError => true
         | _ => false),
        (match add_resource_factory w 0 okFactory [8] "bad name" none with
         | .error .valueError => true
         | _ => false))

/-- A factory callback that raises. -/
def failFactory : FactoryCallback :=
  { fn := fun _ => .error (.userError 3), is_coroutine := false }

/-- Claim C9 run: a failing factory's exception propagates out of
`get_resource`. -/
def c9Run : Except Err (Option Val) := do
  let w : World := [mkCtx none]
  let w ← add_resource_factory w 0 failFactory [7] "n" none
  let (_, r) ← get_resource w 0 7 "n"
  pure r

/-- A crafted closed context holding a concrete entry and (directly, as
`get_resources`' factory stage expects but the API never produces) a
factory-flagged container inside `_resources`. -/
def c10World : World :=
  [{ parent := none
     closed := true
     resources :=
       [((0, "c"),
         { value_or_factory := .value 5, types := [0], name := "c"
           context_attr := none, is_factory := false }),
        ((0, "f"),
         { value_or_factory := .factory c5Factory, types := [0], name := "f"
           context_attr := none, is_factory := true })]
     resource_factories := []
     resource_factories_by_context_attr := []
     attrs := []
     teardown_callbacks := [] }]

/-- Claim C10 run: on the closed context, `get_resource` and
`require_resource` raise the closed-context error, while `get_resources`
returns results and even runs its (otherwise dead) materialization stage. -/
def c10Run :
    Except Err (World × Option Val) × Except Err (World × Val) ×
      Except Err (List Val) :=
  (get_resource c10World 0 0 "c",
   require_resource c10World 0 0 "c",
   (get_resources c10World 0 0).map Prod.snd)

/-- The exception raised by running one teardown callback, if any. -/
def errOf : Except Err Unit → Option Err
  | .ok _ => none
  | .error e => some e

/-! ### Worlds used by the witness theorems -/

/-- A container holding the concrete value 5 under `(7, "n")`. -/
def w1Container : ResourceContainer :=
  { value_or_factory := .value 5, types := [7], name := "n"
    context_attr := none, is_factory := false }

/-- One context that already holds the concrete value 5 under `(7, "n")`. -/
def w1Ctx : Ctx := { mkCtx none with resources := [((7, "n"), w1Container)] }

def w1 : World := [w1Ctx]

/-- A factory container producing 99, registered under `(7, "n")`. -/
def w2Container : ResourceContainer :=
  { value_or_factory := .factory c5Factory, types := [7], name := "n"
    context_attr := none, is_factory := true }

/-- One context with the factory registered under `(7, "n")`. -/
def w2Ctx : Ctx :=
  { mkCtx none with resource_factories := [((7, "n"), w2Container)] }

def w2 : World := [w2Ctx]

/-- One already-closed context. -/
def wClosedCtx : Ctx := { mkCtx none with closed := true }

def wClosed : World := [wClosedCtx]

/-- One context with the value 5 registered under the two names `a` and `b`. -/
def w6Ctx : Ctx :=
  { mkCtx none with resources :=
      [((7, "a"),
        { value_or_factory := .value 5, types := [7], name := "a"
          context_attr := none, is_factory := false }),
       ((7, "b"),
        { value_or_factory := .value 5, types := [7], name := "b"
          context_attr := none, is_factory := false })] }

def w6 : World := [w6Ctx]

/-- A factory callback flagged as a coroutine function. -/
def coroFactory : FactoryCallback := { fn := fun _ => .ok 0, is_coroutine := true }

/-- A factory container whose callable raises `userError 3`. -/
def w9Container : ResourceContainer :=
  { value_or_factory := .factory failFactory, types := [7], name := "n"
    context_attr := none, is_factory := true }

/-- One context with the failing factory registered under `(7, "n")`. -/
def w9Ctx : Ctx :=
  { mkCtx none with resource_factories := [((7, "n"), w9Container)] }

def w9 : World := [w9Ctx]

/-! ### Helper lemmas about the dictionary and heap model -/

theorem dictGet_dictSet_self {K A : Type} [DecidableEq K]
    (d : List (K × A)) (k : K) (a : A) :
    dictGet (dictSet d k a) k = some a := by
  induction d with
  | nil => simp [dictSet, dictGet]
  | cons p rest ih =>
      obtain ⟨k', a'⟩ := p
      by_cases h : k' = k
      · simp [dictSet, dictGet, h]
      · simp [dictSet, dictGet, h, ih]

theorem dictGet_dictSet_ne {K A : Type} [DecidableEq K]
    (d : List (K × A)) (k k'' : K) (a : A) (hne : k'' ≠ k) :
    dictGet (dictSet d k a) k'' = dictGet d k'' := by
  have hkk : ¬k = k'' := fun h => hne h.symm
  induction d with
  | nil => simp [dictSet, dictGet, hkk]
  | cons p rest ih =>
      obtain ⟨k', a'⟩ := p
      by_cases h : k' = k
      · subst h
        simp [dictSet, dictGet, hkk]
      · simp only [dictSet, if_neg h]
        by_cases h' : k' = k''
        · simp [dictGet, h']
        · simp [dictGet, h', ih]

theorem getCtx?_setCtx_self (w : World) (i : Nat) (c c' : Ctx)
    (h : getCtx? w i = some c) : getCtx? (setCtx w i c') i = some c' := by
  induction w generalizing i with
  | nil => simp [getCtx?] at h
  | cons x rest ih =>
      cases i with
      | zero => simp [setCtx, getCtx?]
      | succ n => simpa [setCtx, getCtx?] using ih n (by simpa [getCtx?] using h)

theorem setCtx_setCtx (w : World) (i : Nat) (c1 c2 : Ctx) :
    setCtx (setCtx w i c1) i c2 = setCtx w i c2 := by
  induction w generalizing i with
  | nil => simp [setCtx]
  | cons x rest ih =>
      cases i with
      | zero => simp [setCtx]
      | succ n => simp [setCtx, ih]

theorem dictGet_storeAll_not_mem (types : List TypeId)
    (d : List (Key × ResourceContainer)) (name : Name)
    (r : ResourceContainer) (t : TypeId) (n : Name) (h : t ∉ types) :
    dictGet (storeAll d types name r) (t, n) = dictGet d (t, n) := by
  induction types generalizing d with
  | nil => simp [storeAll]
  | cons t' ts ih =>
      have ht' : t ≠ t' := fun hh => h (hh ▸ List.mem_cons_self t' ts)
      have hts : t ∉ ts := fun hh => h (List.mem_cons_of_mem t' hh)
      simp only [storeAll, List.foldl_cons]
      rw [show (List.foldl (fun d t => dictSet d (t, name) r) (dictSet d (t', name) r) ts)
            = storeAll (dictSet d (t', name) r) ts name r from rfl,
          ih _ hts, dictGet_dictSet_ne _ _ _ _ (by simp [ht'])]

theorem dictGet_storeAll_mem (types : List TypeId)
    (d : List (Key × ResourceContainer)) (name : Name)
    (r : ResourceContainer) (t : TypeId) (h : t ∈ types) :
    dictGet (storeAll d types name r) (t, name) = some r := by
  induction types generalizing d with
  | nil => cases h
  | cons t' ts ih =>
      simp only [storeAll, List.foldl_cons]
      by_cases hts : t ∈ ts
      · exact ih _ hts
      · have ht' : t = t' := by
          rcases List.mem_cons.mp h with h1 | h1
          · exact h1
          · exact absurd h1 hts
        subst ht'
        rw [show (List.foldl (fun d t => dictSet d (t, name) r) (dictSet d (t, name) r) ts)
              = storeAll (dictSet d (t, name) r) ts name r from rfl,
            dictGet_storeAll_not_mem ts _ _ _ _ _ hts,
            dictGet_dictSet_self]

theorem pySet_nodup {A : Type} [DecidableEq A] (l : List A) :
    (pySet l).Nodup := by
  suffices h : ∀ acc : List A, acc.Nodup →
      (l.foldl (fun acc v => if v ∈ acc then acc else acc ++ [v]) acc).Nodup by
    exact h [] List.nodup_nil
  induction l with
  | nil => intro acc hacc; exact hacc
  | cons x xs ih =>
      intro acc hacc
      simp only [List.foldl_cons]
      by_cases hx : x ∈ acc
      · rw [if_pos hx]; exact ih acc hacc
      · rw [if_neg hx]
        refine ih _ ?_
        simpa [List.Nodup] using List.Nodup.append hacc (List.nodup_singleton x)
          (by simpa [List.disjoint_singleton] using hx)

theorem teardownErrors_eq (cbs : List (CbFun × Bool)) (exc : Option Err) :
    teardownErrors cbs exc =
      cbs.filterMap fun cb => errOf (cb.1 (if cb.2 then exc else none)) := by
  suffices h : ∀ acc : List Err,
      cbs.foldl (fun excs cb =>
        match cb.1 (if cb.2 then exc else none) with
        | .ok _ => excs
        | .error e => excs ++ [e]) acc =
      acc ++ (cbs.filterMap fun cb => errOf (cb.1 (if cb.2 then exc else none))) by
    simpa [teardownErrors] using h []
  induction cbs with
  | nil => intro acc; simp
  | cons cb rest ih =>
      intro acc
      simp only [List.foldl_cons, List.filterMap_cons]
      cases hcb : cb.1 (if cb.2 then exc else none) with
      | ok u => simp [errOf, hcb, ih]
      | error e => simp [errOf, hcb, ih]

theorem ite_pair {α β : Type} (p : Prop) [Decidable p] (a : α) (b c : β) :
    (if p then (a, b) else (a, c)) = (a, if p then b else c) := by
  by_cases h : p <;> simp [h]

theorem materializeInto_closed (c : Ctx) (r : ResourceContainer) (v : Val) :
    (materializeInto c r v).closed = c.closed := by
  cases h : r.context_attr <;> simp [materializeInto, h]

theorem materializeInto_resources (c : Ctx) (r : ResourceContainer) (v : Val) :
    (materializeInto c r v).resources =
      storeAll c.resources r.types r.name (materializedContainer r v) := by
  cases h : r.context_attr <;> simp [materializeInto, h]

theorem generate_value_ok (fr : ResourceContainer) (fc : FactoryCallback)
    (w : World) (i : Nat) (c : Ctx) (v : Val)
    (hf : fr.is_factory = true) (hp : fr.value_or_factory = .factory fc)
    (hv : fc.fn i = .ok v) (hc : getCtx? w i = some c) :
    fr.generate_value w i = .ok (setCtx w i (materializeInto c fr v), v) := by
  simp [ResourceContainer.generate_value, hf, hp, hv, hc]

/-! ### The claims -/

/-- Claim C1: for every context and every `(type, name)` key, `get_resource`
resolves in this order: a concrete entry stored in the context itself wins
first; otherwise the nearest factory for the key, found by scanning the
context and then its ancestors outward (`findChainFactory`), is invoked and
its result materialized into the requesting context; otherwise the nearest
ancestor concrete entry (`findChainResource`) is returned.  The concrete run
shows the ancestor fallback, the local shadow, and that a sibling is
unaffected. -/
theorem claim_C1_resolution_order :
    (∀ (w : World) (i : Nat) (c : Ctx) (t : TypeId) (n : Name)
        (r : ResourceContainer) (v : Val),
      getCtx? w i = some c → c.closed = false →
      dictGet c.resources (t, n) = some r →
      r.value_or_factory = .value v →
      get_resource w i t n = .ok (w, some v))
    ∧ (∀ (w : World) (i : Nat) (c : Ctx) (t : TypeId) (n : Name)
        (fr : ResourceContainer),
      getCtx? w i = some c → c.closed = false →
      dictGet c.resources (t, n) = none →
      findChainFactory w i (t, n) = some fr →
      get_resource w i t n =
        (match fr.generate_value w i with
         | .error e => .error e
         | .ok (w', value) => .ok (w', some value)))
    ∧ (∀ (w : World) (i : Nat) (c : Ctx) (t : TypeId) (n : Name),
      getCtx? w i = some c → c.closed = false →
      dictGet c.resources (t, n) = none →
      findChainFactory w i (t, n) = none →
      get_resource w i t n =
        .ok (w, (findChainResource w i (t, n)).bind
          fun r => r.value_or_factory.asValue))
    ∧ c1Run = .ok (some 42, some 7, some 42) := by
  refine ⟨?_, ?_, ?_, rfl⟩
  · intro w i c t n r v h1 h2 h3 h4
    simp [get_resource, h1, h2, h3, h4, ValueOrFactory.asValue]
  · intro w i c t n fr h1 h2 h3 h4
    simp [get_resource, h1, h2, h3, h4]
  · intro w i c t n h1 h2 h3 h4
    simp [get_resource, h1, h2, h3, h4]

/-- Witness for C1: a context that already holds 5 under `(7, "n")` returns
it locally. -/
theorem claim_C1_witness : get_resource w1 0 7 "n" = .ok (w1, some 5) :=
  claim_C1_resolution_order.1 w1 0 w1Ctx 7 "n" w1Container 5 rfl rfl rfl rfl

/-- Claim C2: when `get_resource` materializes a factory, the produced value
is stored as a concrete entry in the requesting context, so a second
`get_resource` for the same key on that context returns the same value with
no state change -- the factory cannot run again.  The concrete run shows two
sibling contexts each materializing their own instance from a factory
declared on the root, a repeated call on the first sibling returning its
first instance, and the declaring root gaining no concrete entry. -/
theorem claim_C2_factory_memoization :
    (∀ (w : World) (i : Nat) (c : Ctx) (t : TypeId) (n : Name)
        (fr : ResourceContainer) (fc : FactoryCallback) (v : Val),
      getCtx? w i = some c → c.closed = false →
      dictGet c.resources (t, n) = none →
      findChainFactory w i (t, n) = some fr →
      fr.is_factory = true → fr.value_or_factory = .factory fc →
      fr.name = n → t ∈ fr.types → fc.fn i = .ok v →
      ∃ w', get_resource w i t n = .ok (w', some v) ∧
            get_resource w' i t n = .ok (w', some v))
    ∧ c2Run = .ok (some 101, some 102, some 101, 0) := by
  refine ⟨?_, rfl⟩
  intro w i c t n fr fc v h1 h2 h3 h4 h5 h6 h7 h8 h9
  have hg := generate_value_ok fr fc w i c v h5 h6 h9 h1
  refine ⟨setCtx w i (materializeInto c fr v), ?_, ?_⟩
  · simp [get_resource, h1, h2, h3, h4, hg]
  · have hw' : getCtx? (setCtx w i (materializeInto c fr v)) i =
        some (materializeInto c fr v) :=
      getCtx?_setCtx_self w i c _ h1
    have hclosed : (materializeInto c fr v).closed = false := by
      rw [materializeInto_closed]; exact h2
    have hres : dictGet (materializeInto c fr v).resources (t, n) =
        some (materializedContainer fr v) := by
      rw [materializeInto_resources, h7]
      exact dictGet_storeAll_mem fr.types c.resources n
        (materializedContainer fr v) t h8
    simp [get_resource, hw', hclosed, hres, materializedContainer,
      ValueOrFactory.asValue]

/-- Witness for C2: materializing the 99-producing factory of `w2`. -/
theorem claim_C2_witness :
    ∃ w', get_resource w2 0 7 "n" = .ok (w', some 99) ∧
          get_resource w' 0 7 "n" = .ok (w', some 99) :=
  claim_C2_factory_memoization.1 w2 0 w2Ctx 7 "n" w2Container c5Factory 99
    rfl rfl rfl rfl rfl rfl rfl (by decide) rfl

/-- Claim C3: `close` runs the registered teardown callbacks in reverse
registration order, attempts every callback, collects the raised exceptions
in encounter order, and raises a single aggregate `TeardownError` containing
exactly them if at least one was raised.  The runs show `[1, 2, 3]`
surfacing as `TeardownError [3, 2, 1]`, and only the middle callback raising
surfacing as exactly its exception while the outer two still ran. -/
theorem claim_C3_teardown_aggregation :
    (∀ (w : World) (i : Nat) (c : Ctx) (exc : Option Err),
      getCtx? w i = some c → c.closed = false →
      close w i exc =
        (setCtx w i { c with closed := true, teardown_callbacks := [] },
         if (c.teardown_callbacks.reverse.filterMap fun cb =>
              errOf (cb.1 (if cb.2 then exc else none))).isEmpty
         then none
         else some (.teardownError
            (c.teardown_callbacks.reverse.filterMap fun cb =>
              errOf (cb.1 (if cb.2 then exc else none))))))
    ∧ c3RunAll =
        .ok (some (.teardownError [.userError 3, .userError 2, .userError 1]))
    ∧ c3RunMid = .ok (some (.teardownError [.userError 2])) := by
  refine ⟨?_, rfl, rfl⟩
  intro w i c exc h1 h2
  simp only [close, h1, h2, Bool.false_eq_true, if_false, setCtx_setCtx]
  rw [teardownErrors_eq, ite_pair]

/-- Witness for C3: closing a fresh context with no callbacks raises
nothing. -/
theorem claim_C3_witness :
    close [mkCtx none] 0 none =
      (setCtx [mkCtx none] 0
        { mkCtx none with closed := true, teardown_callbacks := [] }, none) :=
  (claim_C3_teardown_aggregation.1 [mkCtx none] 0 (mkCtx none) none
    rfl rfl).trans rfl

/-- Claim C4: a closed context rejects `add_resource`,
`add_resource_factory` and `add_teardown_callback` with the closed-context
error, a second `close` raises it too, and `close` always leaves the context
closed.  The concrete run closes a fresh context and observes all four
rejections. -/
theorem claim_C4_closed_is_inert :
    (∀ (w : World) (i : Nat) (c : Ctx),
      getCtx? w i = some c → c.closed = true →
      (∀ (v : Val) (n : Name) (ca : Option String) (ts : List TypeId),
        add_resource w i v n ca ts = .error .runtimeError)
      ∧ (∀ (f : FactoryCallback) (ts : List TypeId) (n : Name)
          (ca : Option String),
        add_resource_factory w i f ts n ca = .error .runtimeError)
      ∧ (∀ (cb : CbFun) (pe : Bool),
        add_teardown_callback w i cb pe = .error .runtimeError)
      ∧ (∀ exc : Option Err, close w i exc = (w, some .runtimeError)))
    ∧ (∀ (w : World) (i : Nat) (c : Ctx) (exc : Option Err),
      getCtx? w i = some c →
      ∃ c', getCtx? (close w i exc).1 i = some c' ∧ c'.closed = true)
    ∧ c4Run =
        (.error .runtimeError, .error .runtimeError, .error .runtimeError,
         some .runtimeError) := by
  refine ⟨?_, ?_, rfl⟩
  · intro w i c h1 h2
    refine ⟨?_, ?_, ?_, ?_⟩
    · intro v n ca ts; simp [add_resource, h1, h2]
    · intro f ts n ca; simp [add_resource_factory, h1, h2]
    · intro cb pe; simp [add_teardown_callback, h1, h2]
    · intro exc; simp [close, h1, h2]
  · intro w i c exc h1
    by_cases hc : c.closed
    · exact ⟨c, by simp [close, h1, hc, h1], hc⟩
    · have hc' : c.closed = false := by simpa using hc
      refine ⟨{ c with closed := true, teardown_callbacks := [] }, ?_, rfl⟩
      simp only [close, h1, hc', Bool.false_eq_true, if_false, setCtx_setCtx]
      rw [teardownErrors_eq, ite_pair]
      exact getCtx?_setCtx_self w i c _ h1

/-- Witness for C4: the closed context `wClosed` rejects `add_resource`. -/
theorem claim_C4_witness :
    add_resource wClosed 0 5 "n" none [7] = .error .runtimeError :=
  (claim_C4_closed_is_inert.1 wClosed 0 wClosedCtx rfl rfl).1 5 "n" none [7]

/-- Claim C5 (code bug): the factory stage of `get_resources` iterates
`ctx._resources`, which never contains a factory container, instead of
`ctx._resource_factories`; so after registering a factory for type 7 under
the name `n`, `get_resources` returns the empty set and materializes nothing
(the context keeps zero concrete entries), while `get_resource` on the very
same state does invoke the factory and returns 99.  This contradicts the
docstring of `get_resources` ("Any matching resource factories are also
triggered if necessary."). -/
theorem claim_C5_get_resources_factories_dead :
    c5Run = .ok ([], 0, some 99) := rfl

/-- Counterexample to C6 as stated: the value 5 registered under the two
names `a` and `b` for type 7 comes back from `get_resources` as the
one-element set `[5]` -- the two names are collapsed into one element, not
accounted for separately. -/
theorem claim_C6_counterexample :
    c6Run = .ok [5] ∧ c6Run.map List.length = .ok 1 := ⟨rfl, rfl⟩

/-- Claim C6 (amended): `get_resources` returns the collected values as a
set, and duplicate values arising from different resource names ARE merged
by value equality: the result never contains a value twice, and the same
value registered under two names appears once. -/
theorem claim_C6_set_dedup :
    (∀ (w w' : World) (i : Nat) (t : TypeId) (vs : List Val),
      get_resources w i t = .ok (w', vs) → vs.Nodup)
    ∧ c6Run = .ok [5] := by
  refine ⟨?_, rfl⟩
  intro w w' i t vs h
  unfold get_resources at h
  cases hg : getCtx? w i with
  | none => rw [hg] at h; cases h
  | some c =>
      rw [hg] at h
      dsimp only at h
      split at h
      · cases h
      · rw [Except.ok.injEq, Prod.mk.injEq] at h
        rw [← h.2]
        exact pySet_nodup _

/-- Witness for C6: the two-name world `w6` yields the duplicate-free set
`[5]`. -/
theorem claim_C6_witness :
    get_resources w6 0 7 = .ok (w6, [5]) ∧ ([5] : List Val).Nodup :=
  ⟨rfl, claim_C6_set_dedup.1 w6 w6 0 7 [5] rfl⟩

/-- Claim C7: `add_resource` raises `ResourceConflict` when some declared
`(type, name)` key already exists in the context's own registry, and
succeeds when every declared key is free there; the concrete run shows the
duplicate key conflicting on the same context while a different name on the
same context and the same key on a child context succeed. -/
theorem claim_C7_key_conflict :
    (∀ (w : World) (i : Nat) (c : Ctx) (v : Val) (n : Name) (t : TypeId)
        (ts : List TypeId),
      getCtx? w i = some c → c.closed = false → nameOk n = true →
      t ∈ ts → (dictGet c.resources (t, n)).isSome = true →
      add_resource w i v n none ts = .error .resourceConflict)
    ∧ (∀ (w : World) (i : Nat) (c : Ctx) (v : Val) (n : Name)
        (ts : List TypeId),
      getCtx? w i = some c → c.closed = false → nameOk n = true →
      ts ≠ [] → (∀ t ∈ ts, dictGet c.resources (t, n) = none) →
      ∃ w', add_resource w i v n none ts = .ok w')
    ∧ c7Run = .ok (true, true, true) := by
  refine ⟨?_, ?_, rfl⟩
  · intro w i c v n t ts h1 h2 h3 h4 h5
    have hne : ts.isEmpty = false := by
      cases ts with
      | nil => cases h4
      | cons a b => rfl
    have hany : ts.any (fun t => (dictGet c.resources (t, n)).isSome) = true :=
      List.any_eq_true.mpr ⟨t, h4, h5⟩
    simp [add_resource, h1, h2, h3, hne, hany]
  · intro w i c v n ts h1 h2 h3 h4 h5
    have hne : ts.isEmpty = false := by
      cases ts with
      | nil => exact absurd rfl h4
      | cons a b => rfl
    have hno : ¬∃ x ∈ ts, (dictGet c.resources (x, n)).isSome = true := by
      rintro ⟨x, hx, hs⟩
      rw [h5 x hx] at hs
      cases hs
    simp only [add_resource, h1, h2, h3, hne]
    simp
    rw [if_neg hno]
    exact ⟨_, rfl⟩

/-- Witness for C7: re-adding under the occupied key `(7, "n")` of `w1`
conflicts. -/
theorem claim_C7_witness :
    add_resource w1 0 6 "n" none [7] = .error .resourceConflict :=
  claim_C7_key_conflict.1 w1 0 w1Ctx 6 "n" 7 [7] rfl rfl rfl
    (by decide) rfl

/-- Counterexample to C8 as stated: after `add_resource` has set the bound
attribute `foo` on the context, a subsequent `add_resource_factory` bound to
the same attribute is claimed to raise `ResourceConflict`; the source only
consults `_resource_factories_by_context_attr`, so the call succeeds. -/
theorem claim_C8_counterexample : c8Run = .ok true := rfl

/-- Claim C8 (amended): `add_resource_factory` validates the name like
`add_resource`, rejects a coroutine factory callback with `TypeError` and an
empty `types` with `ValueError`, and raises `ResourceConflict` when the
bound attribute already has a registered resource factory on this context or
when a declared `(type, name)` key already exists among this context's
resource factories -- but not when the attribute was merely set by
`add_resource`. -/
theorem claim_C8_factory_validation :
    (∀ (w : World) (i : Nat) (c : Ctx) (f : FactoryCallback)
        (ts : List TypeId) (n : Name) (a : String),
      getCtx? w i = some c → c.closed = false → nameOk n = true →
      f.is_coroutine = false → ts.isEmpty = false →
      (dictGet c.resource_factories_by_context_attr a).isSome = true →
      add_resource_factory w i f ts n (some a) = .error .resourceConflict)
    ∧ (∀ (w : World) (i : Nat) (c : Ctx) (f : FactoryCallback)
        (ts : List TypeId) (n : Name),
      getCtx? w i = some c → c.closed = false → nameOk n = true →
      f.is_coroutine = false → ts.isEmpty = false →
      ts.any (fun t => (dictGet c.resource_factories (t, n)).isSome) = true →
      add_resource_factory w i f ts n none = .error .resourceConflict)
    ∧ (∀ (w : World) (i : Nat) (c : Ctx) (f : FactoryCallback) (n : Name)
        (ca : Option String),
      getCtx? w i = some c → c.closed = false → nameOk n = true →
      f.is_coroutine = false →
      add_resource_factory w i f [] n ca = .error .valueError)
    ∧ (∀ (w : World) (i : Nat) (c : Ctx) (f : FactoryCallback)
        (ts : List TypeId) (n : Name) (ca : Option String),
      getCtx? w i = some c → c.closed = false → nameOk n = true →
      f.is_coroutine = true →
      add_resource_factory w i f ts n ca = .error .typeError)
    ∧ (∀ (w : World) (i : Nat) (c : Ctx) (f : FactoryCallback)
        (ts : List TypeId) (n : Name) (ca : Option String),
      getCtx? w i = some c → c.closed = false → nameOk n = false →
      add_resource_factory w i f ts n ca = .error .valueError)
    ∧ c8aRun = .ok (true, true, true, true, true)
    ∧ c8Run = .ok true := by
  refine ⟨?_, ?_, ?_, ?_, ?_, rfl, rfl⟩
  · intro w i c f ts n a h1 h2 h3 h4 h5 h6
    simp [add_resource_factory, h1, h2, h3, h4, h5, h6]
  · intro w i c f ts n h1 h2 h3 h4 h5 h6
    simp [add_resource_factory, h1, h2, h3, h4, h5, h6]
  · intro w i c f n ca h1 h2 h3 h4
    simp [add_resource_factory, h1, h2, h3, h4]
  · intro w i c f ts n ca h1 h2 h3 h4
    simp [add_resource_factory, h1, h2, h3, h4]
  · intro w i c f ts n ca h1 h2 h3
    simp [add_resource_factory, h1, h2, h3]

/-- Witness for C8: a coroutine factory callback is rejected with
`TypeError`. -/
theorem claim_C8_witness :
    add_resource_factory [mkCtx none] 0 coroFactory [8] "h" none =
      .error .typeError :=
  (claim_C8_factory_validation.2.2.2.1) [mkCtx none] 0 (mkCtx none)
    coroFactory [8] "h" none rfl rfl rfl rfl

/-- Claim C9: if the factory callable raises during materialization, the
exception propagates to the caller of `get_resource` and no state escapes:
the error result carries no world, so the caller's world is unchanged and a
later lookup for the same key runs the factory again.  The concrete run
shows a failing factory's `userError 3` surfacing from `get_resource`. -/
theorem claim_C9_factory_failure_atomic :
    (∀ (w : World) (i : Nat) (c : Ctx) (t : TypeId) (n : Name)
        (fr : ResourceContainer) (fc : FactoryCallback) (e : Err),
      getCtx? w i = some c → c.closed = false →
      dictGet c.resources (t, n) = none →
      findChainFactory w i (t, n) = some fr →
      fr.is_factory = true → fr.value_or_factory = .factory fc →
      fc.fn i = .error e →
      get_resource w i t n = .error e)
    ∧ c9Run = .error (.userError 3) := by
  refine ⟨?_, rfl⟩
  intro w i c t n fr fc e h1 h2 h3 h4 h5 h6 h7
  simp [get_resource, h1, h2, h3, h4, ResourceContainer.generate_value,
    h5, h6, h7]

/-- Witness for C9: the failing factory of `w9` propagates `userError 3`. -/
theorem claim_C9_witness :
    get_resource w9 0 7 "n" = .error (.userError 3) :=
  claim_C9_factory_failure_atomic.1 w9 0 w9Ctx 7 "n" w9Container failFactory
    (.userError 3) rfl rfl rfl rfl rfl rfl rfl

/-- Claim C10: closed-state enforcement is asymmetric: `get_resource` (and
therefore `require_resource`) on a closed context raises the closed-context
error, while `get_resources` performs no closed check at all -- on the
crafted closed context `c10World` it still returns results and even runs its
factory-materialization stage. -/
theorem claim_C10_closed_asymmetry :
    (∀ (w : World) (i : Nat) (c : Ctx) (t : TypeId) (n : Name),
      getCtx? w i = some c → c.closed = true →
      get_resource w i t n = .error .runtimeError ∧
      require_resource w i t n = .error .runtimeError)
    ∧ c10Run = (.error .runtimeError, .error .runtimeError, .ok [5, 99]) := by
  refine ⟨?_, rfl⟩
  intro w i c t n h1 h2
  constructor
  · simp [get_resource, h1, h2]
  · simp [require_resource, get_resource, h1, h2]

/-- Witness for C10: the closed context `wClosed` rejects lookups. -/
theorem claim_C10_witness :
    get_resource wClosed 0 7 "n" = .error .runtimeError ∧
    require_resource wClosed 0 7 "n" = .error .runtimeError :=
  claim_C10_closed_asymmetry.1 wClosed 0 wClosedCtx 7 "n" rfl rfl

end AsphaltCtx
